import Mathlib

/-!
Verification of the MMS_Time_Tracking repository against its specification.

The repository consists of a ClickUp API client (duplicated across
clickup_raw_code.py and Web App/clickup_client.py), a time-entry collector,
and a pandas tag-aggregation pipeline.  The HTTP transport is external; its
responses are supplied to the embedded functions as explicit arguments
(oracles).  Python exceptions are modelled with an explicit error type and
Except; pandas float arithmetic is modelled over the rationals, with the
NaN produced by a division whose denominator is zero modelled as Option.none.
-/

deriving instance DecidableEq for Except

namespace MMS

/-- Python exceptions relevant to this program. -/
inductive PyErr where
  | nameErr (missing : String)
  | typeErr (msg : String)
  | keyErr (key : String)
  | httpErr (status : Nat)
  deriving DecidableEq, Repr

/-- A ClickUp view as used by the client: a dictionary with id and name. -/
structure View where
  id : String
  name : String
  deriving DecidableEq, Repr

/-- The DoNotAlter view list used by concrete test inputs. -/
def viewsW : List View := [⟨"v1", "DoNotAlter"⟩]

/-- A view list with no view named DoNotAlter. -/
def viewsNone : List View := [⟨"v1", "Other"⟩, ⟨"v2", "Board"⟩]

/-- Concrete page responses: page 0 is full (30 tasks), page 1 is short. -/
def pagesC1 : String → Nat → List String := fun _ p =>
  if p = 0 then List.replicate 30 "t" else if p = 1 then ["u"] else []

/-! Python name resolution for get_views (clickup_client.py lines 161-173,
clickup_raw_code.py lines 173-185).  The body builds the URL from the free
name list_id, which is neither a parameter (the parameter is view_id) nor
assigned in the body, so Python resolves it in the module global scope. -/

/-- The names bound at module level in src/Web App/clickup_client.py:
the four imports and the class definition. -/
def webapp_module_globals : List String :=
  ["logging", "requests", "pd", "datetime", "ClickUpClient"]

/-- The names bound at module level in src/clickup_raw_code.py: imports,
the class, the module-level functions and the script-level variables. -/
def raw_module_globals : List String :=
  ["os", "logging", "datetime", "time", "requests", "pd", "px", "userdata",
   "timezone", "ClickUpClient", "extract_cf_info", "extract_all_cf_info",
   "format_timestamp", "extract_tracked_time", "create_client_map",
   "create_root_cause_map", "get_user_date", "user_token", "client", "team",
   "team_id", "team_name", "team_members", "assignee_ids", "assignees",
   "start_date", "end_date", "START_DATE", "END_DATE", "data", "df",
   "tag_input", "search_tags", "acid_df", "acid_exploded", "tag_summary",
   "dedup_total", "total_row"]

/-- Local names visible when the body of get_views evaluates its URL
f-string: the two parameters.  list_id is not assigned anywhere in the
body, so it is not a local name. -/
def get_views_locals : List String := ["self", "view_id"]

/-- Embeds get_views: evaluating the URL looks up list_id first among the
locals, then among the module globals; an unresolved name raises NameError
before any request is made.  Were the name resolvable, the function would
return the views key of the HTTP response (supplied as viewsResp). -/
def get_views (globalNames : List String) (viewsResp : List View)
    (view_id : String) : Except PyErr (List View) :=
  if get_views_locals.contains "list_id" || globalNames.contains "list_id" then
    Except.ok viewsResp
  else
    Except.error (PyErr.nameErr "list_id")

/-- get_table_view as actually executed: it calls get_views and scans the
result, propagating any exception get_views raises. -/
def get_table_view_module (globalNames : List String) (viewsResp : List View)
    (list_id : String) : Except PyErr (Option View) :=
  (get_views globalNames viewsResp list_id).map
    (fun views => views.find? (fun v => v.name == "DoNotAlter"))

/-- Embeds the while loop of get_all_tasks as actually executed
(clickup_client.py lines 114-132).  Each iteration calls get_table_view,
that is get_table_view_module here, which calls get_views; an exception
raised there, such as the NameError for the unbound name list_id,
propagates and aborts the invocation.  Were resolution to yield None the
source would raise a TypeError subscripting it with the id key; with a
resolved view it fetches the tasks of the current page from the pages
oracle of the HTTP layer, appends them, and stops on a page of fewer
than 30 tasks.  Alongside the outcome the result carries the number of
resolution calls made and of page requests issued.  The fuel argument
bounds the iterations; none means the loop did not finish within the
fuel. -/
def get_all_tasks_go (globalNames : List String) (viewsResp : List View)
    (list_id : String) (pages : String → Nat → List String) :
    Nat → Nat → List String → Nat → Nat →
      Option (Except PyErr (List String) × Nat × Nat)
  | 0, _, _, _, _ => none
  | fuel+1, page, acc, ra, pr =>
    match get_table_view_module globalNames viewsResp list_id with
    | Except.error e => some (Except.error e, ra + 1, pr)
    | Except.ok none =>
        some (Except.error (PyErr.typeErr "NoneType is not subscriptable"),
          ra + 1, pr)
    | Except.ok (some v) =>
      let tasks := pages v.id page
      if tasks.length < 30 then
        some (Except.ok (acc ++ tasks), ra + 1, pr + 1)
      else
        get_all_tasks_go globalNames viewsResp list_id pages fuel (page + 1)
          (acc ++ tasks) (ra + 1) (pr + 1)

/-- get_all_tasks: run the pagination loop from page 0 with an empty
accumulator and no resolution calls or page requests made yet. -/
def get_all_tasks (globalNames : List String) (viewsResp : List View)
    (list_id : String) (pages : String → Nat → List String) (fuel : Nat) :
    Option (Except PyErr (List String) × Nat × Nat) :=
  get_all_tasks_go globalNames viewsResp list_id pages fuel 0 [] 0 0

/-! The time-entry collector, extract_tracked_time
(clickup_raw_code.py lines 252-292). -/

/-- One tracked interval of a time entry: start and stop timestamps in
Unix milliseconds, duration in milliseconds, and the tag names attached to
the interval.  The source reads the time key with default 0, so a missing
duration is already absorbed into the field. -/
structure Interval where
  start : Int
  stop : Int
  time : Int
  tags : List String
  deriving DecidableEq, Repr

/-- One time entry: optional username, read from the user dictionary with
the Unknown default applied later, and its intervals. -/
structure TimeEntry where
  username : Option String
  intervals : List Interval
  deriving DecidableEq, Repr

/-- A task as consumed by the collector: the id and name keys. -/
structure TaskInfo where
  id : String
  name : String
  deriving DecidableEq, Repr

/-- Response of one get_task_time_tracking call: either the parsed entries
or an HTTPError carrying the status code. -/
inductive FetchResult where
  | ok (entries : List TimeEntry)
  | httpError (status : Nat)
  deriving DecidableEq, Repr

/-- Floor of a rational, computed on the normalised numerator and
denominator with flooring integer division. -/
def ratFloor (q : ℚ) : Int := Int.fdiv q.num (q.den : Int)

/-- Python round(x, 2): round half to even at two decimal places. -/
def pyRound2 (q : ℚ) : ℚ :=
  let y := q * 100
  let n := ratFloor y
  let f := y - (n : ℚ)
  let r : Int :=
    if f < 1/2 then n
    else if 1/2 < f then n + 1
    else if n % 2 = 0 then n else n + 1
  (r : ℚ) / 100

/-- One row appended to records for one interval (lines 270-277).  The
timestamp formatting of format_timestamp is presentation only and is kept
as the raw millisecond values here; the tag names are joined with a comma
and a space in their original order. -/
structure Record where
  taskId : String
  assignee : String
  durationHours : ℚ
  startTs : Int
  stopTs : Int
  tagNames : String
  deriving DecidableEq, Repr

/-- The record built from one interval. -/
def interval_record (taskId : String) (assignee : String) (iv : Interval) :
    Record :=
  { taskId := taskId
    assignee := assignee
    durationHours := pyRound2 ((iv.time : ℚ) / 3600000)
    startTs := iv.start
    stopTs := iv.stop
    tagNames := String.intercalate ", " iv.tags }

/-- All records of one fetched time entry: one per interval, with the
assignee defaulting to Unknown. -/
def entry_records (taskId : String) (e : TimeEntry) : List Record :=
  e.intervals.map (interval_record taskId (e.username.getD "Unknown"))

/-- Embeds the task loop of extract_tracked_time.  fetch gives the response
of the attempt-numbered get_task_time_tracking call for a task id.  On a
successful first fetch the records of all entries are appended.  On a 429
the code sleeps, refetches, binds the result to time_entries and falls out
of the handler without processing it, so the retried entries contribute no
records; if the retry itself raises, the exception escapes the handler and
aborts the whole run.  On any other HTTPError the handler evaluates the
undefined name e inside the print call, raising NameError and aborting the
run. -/
def extract_tracked_time_go (fetch : String → Nat → FetchResult) :
    List TaskInfo → List Record → Except PyErr (List Record)
  | [], records => Except.ok records
  | t :: rest, records =>
    match fetch t.id 0 with
    | FetchResult.ok entries =>
        extract_tracked_time_go fetch rest
          (records ++ (entries.map (entry_records t.id)).flatten)
    | FetchResult.httpError s =>
        if s = 429 then
          match fetch t.id 1 with
          | FetchResult.ok _ => extract_tracked_time_go fetch rest records
          | FetchResult.httpError s2 => Except.error (PyErr.httpErr s2)
        else
          Except.error (PyErr.nameErr "e")

/-- extract_tracked_time: run the loop with an empty record accumulator. -/
def extract_tracked_time (fetch : String → Nat → FetchResult)
    (tasks : List TaskInfo) : Except PyErr (List Record) :=
  extract_tracked_time_go fetch tasks []

/-! The tag aggregation pipeline (clickup_raw_code.py lines 382-427).
A row of the dataframe df is one team time entry; the pipeline uses its id,
duration, billable flag and tag names. -/

/-- One time entry row of the dataframe. -/
structure TEntry where
  id : String
  duration : Int
  billable : Bool
  tags : List String
  deriving DecidableEq, Repr

/-- Column Duration (hours): duration divided by 1000*60*60 (line 392). -/
def durationHoursOf (e : TEntry) : ℚ := (e.duration : ℚ) / 3600000

/-- Column Billable: the label derived from the billable flag (line 393). -/
def billableLabel (e : TEntry) : String :=
  if e.billable then "Billable" else "Non-Billable"

/-- Python str.lower for the ASCII range, mapped over the characters. -/
def pyLower (s : String) : String := String.mk (s.data.map Char.toLower)

/-- ASCII whitespace stripped by Python str.strip. -/
def isSpaceChar (c : Char) : Bool :=
  c == ' ' || c == '\t' || c == '\n' || c == '\r'

/-- Python str.strip: drop leading and trailing whitespace. -/
def pyStrip (s : String) : String :=
  String.mk (((s.data.dropWhile isSpaceChar).reverse.dropWhile
    isSpaceChar).reverse)

/-- Splits a character list at commas, keeping empty pieces. -/
def splitCommaAux : List Char → List Char → List String
  | [], acc => [String.mk acc.reverse]
  | c :: rest, acc =>
    if c == ',' then String.mk acc.reverse :: splitCommaAux rest []
    else splitCommaAux rest (c :: acc)

/-- Python input.split(","): the empty string splits to one empty piece. -/
def splitOnComma (s : String) : List String := splitCommaAux s.data []

/-- Column TagName: the lower-cased tag names (line 395). -/
def tagNameList (e : TEntry) : List String :=
  e.tags.map pyLower

/-- search_tags (line 398): split the input on commas, strip each piece,
drop empty strings.  Note that no piece is lower-cased. -/
def parse_search_tags (input : String) : List String :=
  ((splitOnComma input).map pyStrip).filter (fun t => t ≠ "")

/-- acid_df (lines 403-405): retain the entries having at least one tag
whose original-case name is a member of the search tags. -/
def acid_df (entries : List TEntry) (st : List String) : List TEntry :=
  entries.filter (fun e => e.tags.any (fun t => st.contains t))

/-- The exploded rows one retained entry produces (lines 408-409): one row
per lower-cased tag name that is a member of the search tags, carrying the
Billable label and the duration of the entry. -/
def explodeEntry (st : List String) (e : TEntry) : List (String × String × ℚ) :=
  ((tagNameList e).filter (fun t => st.contains t)).map
    (fun t => (t, billableLabel e, durationHoursOf e))

/-- acid_exploded: the retained entries exploded on TagName and filtered to
the search tags. -/
def acid_exploded (entries : List TEntry) (st : List String) :
    List (String × String × ℚ) :=
  (acid_df entries st).flatMap (explodeEntry st)

/-- Sum of the durations of the exploded rows at one (TagName, Billable)
cell of the groupby-unstack table (line 412); absent combinations sum to 0,
matching fill_value=0. -/
def sumCell (rows : List (String × String × ℚ)) (t c : String) : ℚ :=
  ((rows.filter (fun r => r.1 = t ∧ r.2.1 = c)).map (fun r => r.2.2)).sum

/-- The (t, c) cell of tag_summary. -/
def cellSum (entries : List TEntry) (st : List String) (t c : String) : ℚ :=
  sumCell (acid_exploded entries st) t c

/-- The columns of the unstacked table: the distinct Billable labels
occurring among the exploded rows.  unstack creates no column for a label
no row carries. -/
def billable_cols (entries : List TEntry) (st : List String) : List String :=
  ((acid_exploded entries st).map (fun r => r.2.1)).dedup

/-- The rows of the tag summary: the distinct exploded tag names. -/
def tag_rows (entries : List TEntry) (st : List String) : List String :=
  ((acid_exploded entries st).map (fun r => r.1)).dedup

/-- Column Total Hours (line 413): the row sum across the existing
columns. -/
def total_hours_tag (entries : List TEntry) (st : List String) (t : String) :
    ℚ :=
  ((billable_cols entries st).map (fun c => cellSum entries st t c)).sum

/-- Column % Billable of a tag row (line 414): the division is performed
unconditionally; with a zero Total Hours the float quotient is NaN, which
is modelled as none. -/
def pct_billable_tag (entries : List TEntry) (st : List String) (t : String) :
    Option ℚ :=
  if total_hours_tag entries st t = 0 then none
  else some (cellSum entries st t "Billable" / total_hours_tag entries st t * 100)

/-- drop_duplicates(subset="id") with the default keep="first" (line 418):
keep the first entry of each id. -/
def dedup_by_id : List TEntry → List TEntry
  | [] => []
  | e :: rest => e :: dedup_by_id (rest.filter (fun x => x.id ≠ e.id))
termination_by l => l.length
decreasing_by
  simp only [List.length_cons]
  exact Nat.lt_succ_of_le (List.length_filter_le _ _)

/-- Billable sum of the Total row (line 420): over the deduplicated
retained entries whose Billable label is Billable. -/
def total_row_billable (entries : List TEntry) (st : List String) : ℚ :=
  (((dedup_by_id (acid_df entries st)).filter
      (fun e => billableLabel e = "Billable")).map durationHoursOf).sum

/-- Non-Billable sum of the Total row (line 421). -/
def total_row_nonbillable (entries : List TEntry) (st : List String) : ℚ :=
  (((dedup_by_id (acid_df entries st)).filter
      (fun e => billableLabel e = "Non-Billable")).map durationHoursOf).sum

/-- Total Hours of the Total row (line 423). -/
def total_row_total (entries : List TEntry) (st : List String) : ℚ :=
  total_row_billable entries st + total_row_nonbillable entries st

/-- % Billable of the Total row (line 424): guarded against a zero
total. -/
def total_row_pct (entries : List TEntry) (st : List String) : ℚ :=
  if 0 < total_row_total entries st then
    total_row_billable entries st / total_row_total entries st * 100
  else 0

/-- One output row of the tag summary: tag, Billable cell, Total Hours and
% Billable, rounded at presentation.  The Non-Billable column exists only
when some exploded row is non-billable and is omitted here. -/
structure TagRowOut where
  tag : String
  billableH : ℚ
  totalH : ℚ
  pct : Option ℚ
  deriving DecidableEq, Repr

/-- The Total row appended to the summary (lines 419-426). -/
structure TotalRow where
  billableH : ℚ
  nonBillableH : ℚ
  totalH : ℚ
  pct : ℚ
  deriving DecidableEq, Repr

/-- The whole summary computation of lines 412-427.  Line 414 subscripts
tag_summary with the column name Billable; when no exploded row carries
that label the column does not exist and pandas raises KeyError, so the
script aborts before producing any summary.  Otherwise the per-tag rows
and the deduplicated Total row are produced, rounded to 2 decimals. -/
def summarize (entries : List TEntry) (st : List String) :
    Except PyErr (List TagRowOut × TotalRow) :=
  if (billable_cols entries st).contains "Billable" then
    Except.ok
      ((tag_rows entries st).map (fun t =>
        { tag := t
          billableH := pyRound2 (cellSum entries st t "Billable")
          totalH := pyRound2 (total_hours_tag entries st t)
          pct := (pct_billable_tag entries st t).map pyRound2 }),
       { billableH := pyRound2 (total_row_billable entries st)
         nonBillableH := pyRound2 (total_row_nonbillable entries st)
         totalH := pyRound2 (total_row_total entries st)
         pct := pyRound2 (total_row_pct entries st) })
  else
    Except.error (PyErr.keyErr "Billable")

/-! Concrete inputs used by the claim theorems. -/

/-- Task A of the collector examples. -/
def taskA : TaskInfo := ⟨"A", "Task A"⟩

/-- Task B of the collector examples. -/
def taskB : TaskInfo := ⟨"B", "Task B"⟩

/-- A one-interval entry of one hour tagged acid. -/
def entA : TimeEntry :=
  { username := some "alice", intervals := [⟨0, 3600000, 3600000, ["acid"]⟩] }

/-- A one-interval entry of two hours tagged anode. -/
def entB : TimeEntry :=
  { username := some "bob", intervals := [⟨0, 7200000, 7200000, ["anode"]⟩] }

/-- Fetch oracle: task A succeeds, task B returns 429 then succeeds on the
retry. -/
def fetchRetryOk : String → Nat → FetchResult := fun id attempt =>
  if id = "B" then
    (if attempt = 0 then FetchResult.httpError 429 else FetchResult.ok [entB])
  else FetchResult.ok [entA]

/-- Fetch oracle: task A succeeds, task B returns 429 on both attempts. -/
def fetchRetry429 : String → Nat → FetchResult := fun id _ =>
  if id = "B" then FetchResult.httpError 429 else FetchResult.ok [entA]

/-- Fetch oracle: task A fails with HTTP 500, task B succeeds. -/
def fetch500 : String → Nat → FetchResult := fun id _ =>
  if id = "A" then FetchResult.httpError 500 else FetchResult.ok [entB]

/-- A zero-duration billable entry tagged acid. -/
def entryZero : TEntry := ⟨"e0", 0, true, ["acid"]⟩

/-- A two-hour billable entry whose tag has an upper-case letter. -/
def entryMixed : TEntry := ⟨"a", 7200000, true, ["Acid"]⟩

/-- A one-hour billable entry tagged zed. -/
def entryZed : TEntry := ⟨"z", 3600000, true, ["zed"]⟩

/-- A one-hour billable entry tagged acid in lower case. -/
def entryLo : TEntry := ⟨"x", 3600000, true, ["acid"]⟩

/-- A one-hour billable entry whose only tag is Acid with a capital A. -/
def entryUp : TEntry := ⟨"x", 3600000, true, ["Acid"]⟩

/-- A two-hour billable entry tagged both acid and anode. -/
def entryTwoTags : TEntry := ⟨"e1", 7200000, true, ["acid", "anode"]⟩

end MMS

namespace MMS

/-- With the actual module globals of either file the view resolution of
get_all_tasks raises NameError for list_id on its first call, so any
positively-fuelled run aborts with that error after one resolution call
and zero page requests.  The resolution result does not depend on
viewsResp or list_id because the name lookup fails before either is
used. -/
theorem get_all_tasks_nameerr (globalNames : List String)
    (hg : "list_id" ∉ globalNames) (viewsResp : List View)
    (list_id : String) (pages : String → Nat → List String) (fuel : Nat)
    (hfuel : 0 < fuel) :
    get_all_tasks globalNames viewsResp list_id pages fuel =
      some (Except.error (PyErr.nameErr "list_id"), 1, 0) := by
  have hres : get_table_view_module globalNames viewsResp list_id =
      Except.error (PyErr.nameErr "list_id") := by
    simp [get_table_view_module, get_views, get_views_locals, hg, Except.map]
  match fuel, hfuel with
  | fuel+1, _ =>
    rw [get_all_tasks]
    simp only [get_all_tasks_go, hres]

/-- C1: the claimed paging behaviour never occurs in the program: at a
concrete input whose service pages are one full page of 30 tasks followed
by a one-task page, get_all_tasks aborts with NameError for the unbound
name list_id at the first in-loop view resolution, before issuing any
page request, under the module globals of either file; it cannot return
the concatenation of the pages. -/
theorem C1_pagination_nameerror :
    get_all_tasks webapp_module_globals viewsW "L1" pagesC1 5 =
      some (Except.error (PyErr.nameErr "list_id"), 1, 0) ∧
    get_all_tasks raw_module_globals viewsW "L1" pagesC1 5 =
      some (Except.error (PyErr.nameErr "list_id"), 1, 0) ∧
    get_all_tasks webapp_module_globals viewsW "L1" pagesC1 5 ≠
      some (Except.ok (List.replicate 30 "t" ++ ["u"]), 2, 2) := by
  refine ⟨rfl, rfl, by decide⟩

/-- C6 counterexample: at a concrete input with a full first page and a
short second page, the invocation makes one view-resolution call, which
raises NameError for list_id, and issues no page request; so the view is
not resolved exactly once per invocation and no view id is reused across
page requests, contradicting the run of one resolution and two page
requests the claim describes. -/
theorem C6_no_resolution_counterexample :
    get_all_tasks webapp_module_globals viewsW "L1" pagesC1 5 =
      some (Except.error (PyErr.nameErr "list_id"), 1, 0) ∧
    get_all_tasks webapp_module_globals viewsW "L1" pagesC1 5 ≠
      some (Except.ok (List.replicate 30 "t" ++ ["u"]), 1, 2) := by
  refine ⟨rfl, by decide⟩

/-- C6 amended: get_all_tasks never resolves the DoNotAlter view.  The
resolution call sits inside the page loop, and on every invocation the
first call raises NameError for the unbound name list_id, so the run
aborts with exactly one failed resolution call and zero page requests;
no view id is ever obtained or reused. -/
theorem C6_resolution_aborts (viewsResp : List View) (list_id : String)
    (pages : String → Nat → List String) (fuel : Nat) (hfuel : 0 < fuel) :
    get_all_tasks webapp_module_globals viewsResp list_id pages fuel =
      some (Except.error (PyErr.nameErr "list_id"), 1, 0) ∧
    get_all_tasks raw_module_globals viewsResp list_id pages fuel =
      some (Except.error (PyErr.nameErr "list_id"), 1, 0) := by
  exact ⟨get_all_tasks_nameerr webapp_module_globals (by decide) viewsResp
      list_id pages fuel hfuel,
    get_all_tasks_nameerr raw_module_globals (by decide) viewsResp
      list_id pages fuel hfuel⟩

/-- Witness for C6 at a concrete invocation. -/
theorem C6_resolution_aborts_witness :
    get_all_tasks webapp_module_globals viewsW "L6" (fun _ _ => []) 3 =
      some (Except.error (PyErr.nameErr "list_id"), 1, 0) := by
  exact (C6_resolution_aborts viewsW "L6" (fun _ _ => []) 3 (by decide)).1

/-- C7 counterexample: on a list whose views contain no DoNotAlter view,
get_table_view does not return an explicit not-found value: it raises
NameError for list_id before fetching or scanning the views, and
get_all_tasks aborts with that same NameError, which is not a
ViewNotFound and carries no list id; it also does not return an empty
task set. -/
theorem C7_nameerror_counterexample :
    get_table_view_module webapp_module_globals viewsNone "L1" =
      Except.error (PyErr.nameErr "list_id") ∧
    get_table_view_module webapp_module_globals viewsNone "L1" ≠
      Except.ok none ∧
    get_all_tasks webapp_module_globals viewsNone "L1" (fun _ _ => []) 5 =
      some (Except.error (PyErr.nameErr "list_id"), 1, 0) ∧
    get_all_tasks webapp_module_globals viewsNone "L1" (fun _ _ => []) 5 ≠
      some (Except.ok [], 1, 1) := by
  refine ⟨rfl, by decide, rfl, by decide⟩

/-- C7 amended: on a list whose view set contains no view named
DoNotAlter, get_table_view does not return an explicit not-found value:
it raises NameError for the unbound name list_id before any scan, and
get_all_tasks fails with that same NameError, which names no list id,
before issuing any page request; in particular it never returns a task
set, empty or otherwise. -/
theorem C7_view_resolution_nameerror (viewsResp : List View)
    (list_id : String) (pages : String → Nat → List String) (fuel : Nat)
    (hdna : ∀ v ∈ viewsResp, v.name ≠ "DoNotAlter") (hfuel : 0 < fuel) :
    get_table_view_module webapp_module_globals viewsResp list_id =
      Except.error (PyErr.nameErr "list_id") ∧
    get_table_view_module webapp_module_globals viewsResp list_id ≠
      Except.ok none ∧
    get_all_tasks webapp_module_globals viewsResp list_id pages fuel =
      some (Except.error (PyErr.nameErr "list_id"), 1, 0) ∧
    ∀ res : List String, ∀ ra pr : Nat,
      get_all_tasks webapp_module_globals viewsResp list_id pages fuel ≠
        some (Except.ok res, ra, pr) := by
  have hres : get_table_view_module webapp_module_globals viewsResp
      list_id = Except.error (PyErr.nameErr "list_id") := rfl
  have hrun := get_all_tasks_nameerr webapp_module_globals (by decide)
    viewsResp list_id pages fuel hfuel
  refine ⟨hres, ?_, hrun, ?_⟩
  · rw [hres]
    intro hc
    cases hc
  · intro res ra pr hc
    rw [hrun] at hc
    simp at hc

/-- Witness for C7 at a concrete view list without a DoNotAlter view. -/
theorem C7_view_resolution_nameerror_witness :
    get_table_view_module webapp_module_globals viewsNone "L7" =
      Except.error (PyErr.nameErr "list_id") ∧
    get_all_tasks webapp_module_globals viewsNone "L7" (fun _ _ => ["x"]) 3 =
      some (Except.error (PyErr.nameErr "list_id"), 1, 0) := by
  have h := C7_view_resolution_nameerror viewsNone "L7" (fun _ _ => ["x"]) 3
    (by decide) (by decide)
  exact ⟨h.1, h.2.2.1⟩

/-- C10: the result of get_views is independent of its view_id parameter:
its body reads the free name list_id, which is local to neither scope and
is defined at module level in neither file, so every call raises NameError
instead of returning a view list; get_table_view, which get_all_tasks uses
to resolve the view, propagates the same error. -/
theorem C10_get_views_undefined_name (viewsResp : List View)
    (a b list_id : String) :
    get_views webapp_module_globals viewsResp a =
      Except.error (PyErr.nameErr "list_id") ∧
    get_views raw_module_globals viewsResp a =
      Except.error (PyErr.nameErr "list_id") ∧
    get_views webapp_module_globals viewsResp a =
      get_views webapp_module_globals viewsResp b ∧
    get_table_view_module webapp_module_globals viewsResp list_id =
      Except.error (PyErr.nameErr "list_id") ∧
    get_table_view_module raw_module_globals viewsResp list_id =
      Except.error (PyErr.nameErr "list_id") := by
  refine ⟨?_, ?_, ?_, ?_, ?_⟩ <;>
    simp [get_views, get_table_view_module, get_views_locals,
      webapp_module_globals, raw_module_globals, Except.map]

/-- C2: the run with task A succeeding and task B rate-limited once then
succeeding on the retry returns only the records of A: the retried fetch
result is bound but never iterated, so the records of B, which would not
be empty, are silently dropped.  When the retry returns 429 again the
exception escapes the handler and the whole run aborts, returning no
records at all instead of the partial results with a per-task
RateLimitExceeded that the claim describes. -/
theorem C2_retry_discard_bug :
    extract_tracked_time fetchRetryOk [taskA, taskB] =
      Except.ok (entry_records "A" entA) ∧
    entry_records "B" entB ≠ [] ∧
    extract_tracked_time fetchRetry429 [taskA, taskB] =
      Except.error (PyErr.httpErr 429) := by
  refine ⟨rfl, by simp [entry_records, entB], rfl⟩

/-- C8: a non-429 HTTP failure on task A aborts the whole run with a
NameError, because the handler prints the undefined name e (the bound name
is err); the records of task B, which the same pipeline produces when A is
absent, are lost rather than returned. -/
theorem C8_non429_nameerror_bug :
    extract_tracked_time fetch500 [taskA, taskB] =
      Except.error (PyErr.nameErr "e") ∧
    extract_tracked_time fetch500 [taskB] =
      Except.ok (entry_records "B" entB) := by
  refine ⟨rfl, rfl⟩

/-- C9 counterexample: an empty tag input parses to an empty search-tag
list, and summarize on it raises KeyError on the missing Billable column
instead of returning an empty per-tag mapping with an all-zero Total
row. -/
theorem C9_empty_tags_counterexample :
    parse_search_tags "" = [] ∧
    summarize [entryLo] (parse_search_tags "") =
      Except.error (PyErr.keyErr "Billable") := by
  refine ⟨rfl, rfl⟩

/-- C9 amended: summarize with an empty requested-tag set retains no
entries, so the unstacked table has no Billable column and the pipeline
raises KeyError rather than returning an empty summary. -/
theorem C9_empty_tags_keyerror (entries : List TEntry) :
    summarize entries [] = Except.error (PyErr.keyErr "Billable") := by
  have hdf : acid_df entries [] = [] := by
    simp [acid_df]
  have hex : acid_exploded entries [] = [] := by
    simp [acid_exploded, hdf]
  have hcols : billable_cols entries [] = [] := by
    simp [billable_cols, hex]
  simp [summarize, hcols]

/-- C3 counterexample: a zero-duration billable entry produces a tag row
whose Total Hours is 0, yet the row exists and its percent column is the
result of an unconditional division: NaN (modelled none), not 0. -/
theorem C3_tag_row_nan_counterexample :
    tag_rows [entryZero] ["acid"] = ["acid"] ∧
    (billable_cols [entryZero] ["acid"]).contains "Billable" = true ∧
    total_hours_tag [entryZero] ["acid"] "acid" = 0 ∧
    pct_billable_tag [entryZero] ["acid"] "acid" = none ∧
    pct_billable_tag [entryZero] ["acid"] "acid" ≠ some 0 := by
  have hdur : durationHoursOf entryZero = 0 := by
    norm_num [durationHoursOf, entryZero]
  have hex : acid_exploded [entryZero] ["acid"] =
      [("acid", "Billable", durationHoursOf entryZero)] := rfl
  have h0 : total_hours_tag [entryZero] ["acid"] "acid" = 0 := by
    simp [total_hours_tag, billable_cols, cellSum, sumCell, hex, hdur]
  refine ⟨rfl, rfl, h0, by simp [pct_billable_tag, h0],
    by simp [pct_billable_tag, h0]⟩

/-- C3 amended: for a per-tag row the division is performed whenever Total
Hours is nonzero and yields the quotient times 100; when Total Hours is 0
the unconditional float division yields NaN, not 0.  Only the Total row
guards the division: its percent is the quotient when the total is
positive and 0 when the total is 0. -/
theorem C3_percent_billable_guards (entries : List TEntry) (st : List String)
    (t : String) :
    (total_hours_tag entries st t ≠ 0 →
      pct_billable_tag entries st t =
        some (cellSum entries st t "Billable" /
          total_hours_tag entries st t * 100)) ∧
    (total_hours_tag entries st t = 0 →
      pct_billable_tag entries st t = none) ∧
    (0 < total_row_total entries st →
      total_row_pct entries st =
        total_row_billable entries st / total_row_total entries st * 100) ∧
    (total_row_total entries st = 0 → total_row_pct entries st = 0) := by
  refine ⟨?_, ?_, ?_, ?_⟩ <;> intro h <;>
    simp [pct_billable_tag, total_row_pct, h]

/-- Witness for C3 at a one-hour billable entry: both guards take the
nonzero branch and give 100 percent. -/
theorem C3_percent_billable_guards_witness :
    pct_billable_tag [entryLo] ["acid"] "acid" = some 100 ∧
    total_row_pct [entryLo] ["acid"] = 100 := by
  have h := C3_percent_billable_guards [entryLo] ["acid"] "acid"
  have hdur : durationHoursOf entryLo = 1 := by
    norm_num [durationHoursOf, entryLo]
  have hex : acid_exploded [entryLo] ["acid"] =
      [("acid", "Billable", durationHoursOf entryLo)] := rfl
  have hcell : cellSum [entryLo] ["acid"] "acid" "Billable" = 1 := by
    simp [cellSum, sumCell, hex, hdur]
  have htot : total_hours_tag [entryLo] ["acid"] "acid" = 1 := by
    simp [total_hours_tag, billable_cols, hex]
    simp [cellSum, sumCell, hex, hdur]
  have hb : total_row_billable [entryLo] ["acid"] = 1 := by
    simp [total_row_billable, acid_df, dedup_by_id, billableLabel, entryLo,
      durationHoursOf]
  have hnb : total_row_nonbillable [entryLo] ["acid"] = 0 := by
    simp [total_row_nonbillable, acid_df, dedup_by_id, billableLabel, entryLo]
  have htr : total_row_total [entryLo] ["acid"] = 1 := by
    simp [total_row_total, hb, hnb]
  constructor
  · rw [h.1 (by rw [htot]; norm_num)]
    rw [hcell, htot]; norm_num
  · rw [h.2.2.1 (by rw [htr]; norm_num)]
    rw [hb, htr]; norm_num

/-- Retaining a cons of entries keeps the head iff one of its raw tag
names is a search tag. -/
theorem acid_df_cons (e : TEntry) (rest : List TEntry) (st : List String) :
    acid_df (e :: rest) st =
      if e.tags.any (fun t => st.contains t) then e :: acid_df rest st
      else acid_df rest st := by
  simp only [acid_df, List.filter_cons]

/-- Exploding a cons of entries prepends the exploded rows of a retained
head. -/
theorem acid_exploded_cons (e : TEntry) (rest : List TEntry)
    (st : List String) :
    acid_exploded (e :: rest) st =
      (if e.tags.any (fun t => st.contains t) then explodeEntry st e
       else []) ++ acid_exploded rest st := by
  rw [acid_exploded, acid_df_cons]
  by_cases h : e.tags.any (fun t => st.contains t)
  · rw [if_pos h, if_pos h]
    rfl
  · rw [if_neg h, if_neg h, List.nil_append]
    rfl

/-- The cell sum of an empty row list is 0. -/
theorem sumCell_nil (t c : String) : sumCell [] t c = 0 := rfl

/-- The cell sum over a cons of rows adds the value of a matching head. -/
theorem sumCell_cons (r : String × String × ℚ)
    (rows : List (String × String × ℚ)) (t c : String) :
    sumCell (r :: rows) t c =
      (if r.1 = t ∧ r.2.1 = c then r.2.2 else 0) + sumCell rows t c := by
  by_cases h : r.1 = t ∧ r.2.1 = c
  · simp [sumCell, List.filter_cons, h]
  · simp [sumCell, List.filter_cons, h]

/-- The cell sum distributes over list append. -/
theorem sumCell_append (xs ys : List (String × String × ℚ)) (t c : String) :
    sumCell (xs ++ ys) t c = sumCell xs t c + sumCell ys t c := by
  simp [sumCell, List.filter_append]

/-- A tag absent from a tag list contributes nothing to its cell. -/
theorem sumCell_explode_notmem (st : List String) (lab : String) (dur : ℚ)
    (t : String) :
    ∀ tags : List String, t ∉ tags →
      sumCell ((tags.filter (fun x => st.contains x)).map
        (fun x => (x, lab, dur))) t lab = 0 := by
  intro tags
  induction tags with
  | nil => intro _; rfl
  | cons a rest ih =>
    intro h
    have hat : ¬(a = t) := fun hc => h (hc ▸ List.mem_cons_self a rest)
    have hrest := ih (fun hc => h (List.mem_cons_of_mem a hc))
    by_cases hst : st.contains a
    · rw [List.filter_cons, if_pos hst, List.map_cons, sumCell_cons,
        if_neg (fun hc => hat hc.1), hrest, add_zero]
    · rw [List.filter_cons, if_neg hst]
      exact hrest

/-- A tag occurring once in a duplicate-free tag list and requested
contributes exactly the duration to its cell. -/
theorem sumCell_explode_mem (st : List String) (lab : String) (dur : ℚ)
    (t : String) :
    ∀ tags : List String, tags.Nodup → t ∈ tags → st.contains t →
      sumCell ((tags.filter (fun x => st.contains x)).map
        (fun x => (x, lab, dur))) t lab = dur := by
  intro tags
  induction tags with
  | nil => intro _ hmem _; cases hmem
  | cons a rest ih =>
    intro hnd hmem hst
    rcases List.mem_cons.mp hmem with rfl | hmem2
    · have hnotmem : t ∉ rest := (List.nodup_cons.mp hnd).1
      rw [List.filter_cons, if_pos hst, List.map_cons, sumCell_cons,
        if_pos ⟨rfl, rfl⟩, sumCell_explode_notmem st lab dur t rest hnotmem,
        add_zero]
    · have hne : ¬(a = t) := fun hc =>
        (List.nodup_cons.mp hnd).1 (hc ▸ hmem2)
      have ih2 := ih (List.nodup_cons.mp hnd).2 hmem2 hst
      by_cases hsta : st.contains a
      · rw [List.filter_cons, if_pos hsta, List.map_cons, sumCell_cons,
          if_neg (fun hc => hne hc.1), ih2, zero_add]
      · rw [List.filter_cons, if_neg hsta]
        exact ih2

/-- When every tag of an entry is already lower case, the TagName column
equals the raw tag list. -/
theorem tagNameList_eq_of_lower (e : TEntry)
    (hlow : ∀ t ∈ e.tags, pyLower t = t) :
    tagNameList e = e.tags := by
  rw [tagNameList]
  exact (List.map_congr_left hlow).trans (List.map_id e.tags)

/-- Deduplication by id keeps a head whose id is fresh and leaves the tail
untouched. -/
theorem dedup_by_id_cons_fresh (e : TEntry) (l : List TEntry)
    (h : ∀ x ∈ l, x.id ≠ e.id) :
    dedup_by_id (e :: l) = e :: dedup_by_id l := by
  simp only [dedup_by_id]
  have hfe : l.filter (fun x => x.id ≠ e.id) = l :=
    List.filter_eq_self.mpr (fun a ha => by simpa using h a ha)
  rw [hfe]

/-- Billable sum of the Total row over a cons with a fresh id: the head
contributes its duration once iff it is retained and billable. -/
theorem total_row_billable_cons (e : TEntry) (rest : List TEntry)
    (st : List String) (hid : ∀ x ∈ rest, x.id ≠ e.id) :
    total_row_billable (e :: rest) st =
      (if e.tags.any (fun t => st.contains t) ∧ e.billable
       then durationHoursOf e else 0) + total_row_billable rest st := by
  rw [total_row_billable, acid_df_cons]
  by_cases hm : e.tags.any (fun t => st.contains t)
  · rw [if_pos hm]
    have hfresh : ∀ x ∈ acid_df rest st, x.id ≠ e.id := fun x hx =>
      hid x (List.mem_of_mem_filter hx)
    rw [dedup_by_id_cons_fresh e _ hfresh]
    have hm2 : ∃ x ∈ e.tags, x ∈ st := by simpa using hm
    by_cases hb : e.billable
    · have hlab : billableLabel e = "Billable" := by simp [billableLabel, hb]
      simp only [List.filter_cons, hlab]
      simp [hm2, hb, total_row_billable]
    · have hlab : billableLabel e = "Non-Billable" := by
        simp [billableLabel, hb]
      simp only [List.filter_cons, hlab]
      simp [hm2, hb, total_row_billable]
  · rw [if_neg hm]
    have hm2 : ¬∃ x ∈ e.tags, x ∈ st := by simpa using hm
    simp [hm2, total_row_billable]

/-- Non-billable sum of the Total row over a cons with a fresh id. -/
theorem total_row_nonbillable_cons (e : TEntry) (rest : List TEntry)
    (st : List String) (hid : ∀ x ∈ rest, x.id ≠ e.id) :
    total_row_nonbillable (e :: rest) st =
      (if e.tags.any (fun t => st.contains t) ∧ ¬ e.billable
       then durationHoursOf e else 0) + total_row_nonbillable rest st := by
  rw [total_row_nonbillable, acid_df_cons]
  by_cases hm : e.tags.any (fun t => st.contains t)
  · rw [if_pos hm]
    have hfresh : ∀ x ∈ acid_df rest st, x.id ≠ e.id := fun x hx =>
      hid x (List.mem_of_mem_filter hx)
    rw [dedup_by_id_cons_fresh e _ hfresh]
    have hm2 : ∃ x ∈ e.tags, x ∈ st := by simpa using hm
    by_cases hb : e.billable
    · have hlab : billableLabel e = "Billable" := by simp [billableLabel, hb]
      simp only [List.filter_cons, hlab]
      simp [hm2, hb, total_row_nonbillable]
    · have hlab : billableLabel e = "Non-Billable" := by
        simp [billableLabel, hb]
      simp only [List.filter_cons, hlab]
      simp [hm2, hb, total_row_nonbillable]
  · rw [if_neg hm]
    have hm2 : ¬∃ x ∈ e.tags, x ∈ st := by simpa using hm
    simp [hm2, total_row_nonbillable]

/-- C4 counterexample: the retained two-hour billable entry tagged Acid
matches the requested tag Acid, yet it contributes to no per-tag
accumulator: the summary has only a zed row, the cells for Acid and acid
are both 0, while the entry does contribute its 2 hours to the Total row
billable sum, which is 3. -/
theorem C4_case_mismatch_counterexample :
    acid_df [entryMixed, entryZed] ["Acid", "zed"] = [entryMixed, entryZed] ∧
    tag_rows [entryMixed, entryZed] ["Acid", "zed"] = ["zed"] ∧
    cellSum [entryMixed, entryZed] ["Acid", "zed"] "Acid" "Billable" = 0 ∧
    cellSum [entryMixed, entryZed] ["Acid", "zed"] "acid" "Billable" = 0 ∧
    total_row_billable [entryMixed, entryZed] ["Acid", "zed"] = 3 := by
  have hexp : acid_exploded [entryMixed, entryZed] ["Acid", "zed"] =
      [("zed", "Billable", durationHoursOf entryZed)] := rfl
  refine ⟨rfl, rfl, ?_, ?_, ?_⟩
  · rw [cellSum, hexp, sumCell_cons]
    simp [sumCell_nil]
  · rw [cellSum, hexp, sumCell_cons]
    simp [sumCell_nil]
  · have hd : dedup_by_id (acid_df [entryMixed, entryZed] ["Acid", "zed"]) =
        [entryMixed, entryZed] := by
      simp [acid_df, dedup_by_id, entryMixed, entryZed]
    rw [total_row_billable, hd]
    norm_num [billableLabel, entryMixed, entryZed, durationHoursOf]

/-- C4 amended: provided an entry carries lower-case, pairwise-distinct
tag names and an id different from every other entry, then for each of
its tags that is also a requested tag the entry adds its full duration to
that (tag, billable-label) accumulator on top of the remaining entries,
and it adds its duration exactly once to the billable (respectively
non-billable) sum of the deduplicated Total row. -/
theorem C4_explode_dedup_contribution (e : TEntry) (rest : List TEntry)
    (st : List String)
    (hlow : ∀ t ∈ e.tags, pyLower t = t)
    (hnd : e.tags.Nodup)
    (hid : ∀ x ∈ rest, x.id ≠ e.id) :
    (∀ t, t ∈ e.tags → t ∈ st →
      cellSum (e :: rest) st t (billableLabel e) =
        durationHoursOf e + cellSum rest st t (billableLabel e)) ∧
    total_row_billable (e :: rest) st =
      (if e.tags.any (fun t => st.contains t) ∧ e.billable
       then durationHoursOf e else 0) + total_row_billable rest st ∧
    total_row_nonbillable (e :: rest) st =
      (if e.tags.any (fun t => st.contains t) ∧ ¬ e.billable
       then durationHoursOf e else 0) + total_row_nonbillable rest st := by
  refine ⟨?_, total_row_billable_cons e rest st hid,
    total_row_nonbillable_cons e rest st hid⟩
  intro t ht hst
  have hstb : st.contains t := List.elem_eq_true_of_mem hst
  have hmatch : e.tags.any (fun x => st.contains x) = true := by
    rw [List.any_eq_true]
    exact ⟨t, ht, hstb⟩
  rw [cellSum, acid_exploded_cons, if_pos hmatch, sumCell_append,
    explodeEntry, tagNameList_eq_of_lower e hlow,
    sumCell_explode_mem st (billableLabel e) (durationHoursOf e) t e.tags
      hnd ht hstb]
  rfl

/-- Witness for C4 at the example of the claim: a billable two-hour entry
tagged both acid and anode, with both tags requested, adds 2 to the acid
cell and 2 to the anode cell among the per-tag rows, and exactly 2 to the
billable sum of the Total row. -/
theorem C4_explode_dedup_contribution_witness :
    cellSum [entryTwoTags] ["acid", "anode"] "acid"
      (billableLabel entryTwoTags) = 2 ∧
    cellSum [entryTwoTags] ["acid", "anode"] "anode"
      (billableLabel entryTwoTags) = 2 ∧
    total_row_billable [entryTwoTags] ["acid", "anode"] = 2 := by
  have hdur : durationHoursOf entryTwoTags = 2 := by
    norm_num [durationHoursOf, entryTwoTags]
  obtain ⟨h1, h2, _⟩ := C4_explode_dedup_contribution entryTwoTags []
    ["acid", "anode"] (by decide) (by decide) (fun x hx => by cases hx)
  refine ⟨?_, ?_, ?_⟩
  · rw [h1 "acid" (by decide) (by decide), hdur]
    norm_num [cellSum, acid_exploded, acid_df, sumCell]
  · rw [h1 "anode" (by decide) (by decide), hdur]
    norm_num [cellSum, acid_exploded, acid_df, sumCell]
  · rw [h2, if_pos ⟨by decide, rfl⟩, hdur]
    norm_num [total_row_billable, acid_df, dedup_by_id]

/-- C5 counterexample: the parsed search tags keep their original case, so
matching is case-sensitive: an entry tagged Acid is not retained for the
requested tag acid, while the identically-shaped lower-case entry is. -/
theorem C5_case_sensitive_counterexample :
    parse_search_tags " Acid " = ["Acid"] ∧
    parse_search_tags " Acid " ≠ ["acid"] ∧
    acid_df [entryUp] ["acid"] = [] ∧
    acid_df [entryLo] ["acid"] = [entryLo] := by
  refine ⟨rfl, by decide, rfl, rfl⟩

/-- C5 amended: the input search tags are stripped and empties dropped but
never lower-cased, and the retain filter compares raw tag names, so only
the explode step sees lower-cased names; when the entry tag names are
already lower case, the exploded rows are exactly the raw tags that occur
among the search tags. -/
theorem C5_lowercase_matching (entries : List TEntry) (st : List String)
    (hlow : ∀ e ∈ entries, ∀ t ∈ e.tags, pyLower t = t) :
    acid_exploded entries st =
      (acid_df entries st).flatMap (fun e =>
        (e.tags.filter (fun t => st.contains t)).map
          (fun t => (t, billableLabel e, durationHoursOf e))) ∧
    (∀ input s, s ∈ parse_search_tags input →
      s ≠ "" ∧ ∃ p, p ∈ splitOnComma input ∧ s = pyStrip p) := by
  constructor
  · rw [acid_exploded]
    apply List.flatMap_congr
    intro e he
    have he2 : e ∈ entries := List.mem_of_mem_filter he
    rw [explodeEntry, tagNameList_eq_of_lower e (hlow e he2)]
  · intro input s hs
    rw [parse_search_tags] at hs
    have hmem := List.mem_filter.mp hs
    refine ⟨by simpa using hmem.2, ?_⟩
    rcases List.mem_map.mp hmem.1 with ⟨p, hp, hps⟩
    exact ⟨p, hp, hps.symm⟩

/-- Witness for C5 at a lower-case entry and a concrete input string. -/
theorem C5_lowercase_matching_witness :
    acid_exploded [entryLo] ["acid"] =
      [entryLo].flatMap (fun e =>
        (e.tags.filter (fun t => (["acid"] : List String).contains t)).map
          (fun t => (t, billableLabel e, durationHoursOf e))) ∧
    ("a" ≠ "" ∧ ∃ p, p ∈ splitOnComma " a ,b " ∧ "a" = pyStrip p) := by
  obtain ⟨h1, h2⟩ := C5_lowercase_matching [entryLo] ["acid"] (by decide)
  refine ⟨?_, h2 " a ,b " "a" (by decide)⟩
  rw [h1]
  rfl

end MMS
